import Mathlib

/-!
# Spreadsheet Safety Check — verification of the core pipeline

Shallow embedding of `src/spreadsheet_safety_check/checker.py`:
the finding data model, the ODS formula extractor (`_detect_ods_formulas`),
the classifier-reply parser (`analyze_code_with_claude`), the report
renderer (`generate_markdown_report`) and the two sanitizers
(`_create_sanitized_excel`, `_create_sanitized_ods`).

Python string primitives (`str.strip`, `str.split`, `str.replace`,
`str.startswith`, `int(...)`) are modelled over `List Char` with
explicit fuel so that every definition evaluates inside the kernel.
-/

/-- Python `str.isspace` on the characters `str.strip` removes
(ASCII whitespace; enough for the strings this program handles). -/
def isPySpace (c : Char) : Bool :=
  c = ' ' || c = '\t' || c = '\n' || c = '\r' || c = '\x0b' || c = '\x0c'

/-- Python `str.strip()`: drop leading and trailing whitespace. -/
def pyStrip (s : String) : String :=
  String.mk (((s.data.dropWhile isPySpace).reverse.dropWhile isPySpace).reverse)

/-- Worker for `pySplit`; the fuel argument only makes the recursion
structural, `pySplit` always supplies enough for the whole input. -/
def pySplitAux (sep : List Char) : Nat → List Char → List Char → List (List Char)
  | _, [], acc => [acc.reverse]
  | 0, l, acc => [acc.reverse ++ l]
  | fuel + 1, c :: rest, acc =>
    if sep.isPrefixOf (c :: rest) then
      acc.reverse :: pySplitAux sep fuel (List.drop (sep.length - 1) rest) []
    else
      pySplitAux sep fuel rest (c :: acc)

/-- Python `s.split(sep)` for a non-empty separator: non-overlapping
occurrences, left to right; `"".split(sep) == [""]`. -/
def pySplit (s sep : String) : List String :=
  (pySplitAux sep.data (s.data.length + 1) s.data []).map String.mk

/-- Worker for `pyReplace`, fuelled like `pySplitAux`. -/
def pyReplaceAux (pat rep : List Char) : Nat → List Char → List Char
  | _, [] => []
  | 0, l => l
  | fuel + 1, c :: rest =>
    if pat.isPrefixOf (c :: rest) then
      rep ++ pyReplaceAux pat rep fuel (List.drop (pat.length - 1) rest)
    else
      c :: pyReplaceAux pat rep fuel rest

/-- Python `s.replace(pat, rep)` for a non-empty pattern: replaces every
non-overlapping occurrence, left to right. -/
def pyReplace (s pat rep : String) : String :=
  String.mk (pyReplaceAux pat.data rep.data (s.data.length + 1) s.data)

/-- Python `s.startswith(pre)`. -/
def pyStartsWith (s pre : String) : Bool :=
  pre.data.isPrefixOf s.data

/-- Digit-string to number (no sign); `none` when empty or non-digit. -/
def digitsToNat (l : List Char) : Option Nat :=
  if l = [] then none
  else if l.all Char.isDigit then
    some (l.foldl (fun a c => a * 10 + (c.toNat - 48)) 0)
  else none

/-- Python `int(s)` on a decimal string: surrounding whitespace and an
optional sign are accepted; anything else raises, modelled as `none`
(numeric-literal extras such as underscores are not modelled — no input
in this development uses them). -/
def pyInt (s : String) : Option Int :=
  match (pyStrip s).data with
  | '+' :: ds => (digitsToNat ds).map (fun n => (n : Int))
  | '-' :: ds => (digitsToNat ds).map (fun n => -(n : Int))
  | ds => (digitsToNat ds).map (fun n => (n : Int))

/-- Python truthiness of an optional string attribute:
`None` and `""` are falsy. -/
def truthy : Option String → Bool
  | none => false
  | some s => !(s == "")

/-- Python `attr or default` for an optional string attribute
(`None` and `""` both fall back to the default). -/
def pyOr (o : Option String) (d : String) : String :=
  match o with
  | some s => if s = "" then d else s
  | none => d

/-! ## The finding data model (`MacroFinding` dataclass) -/

/-- `MacroFinding` from `checker.py`: one discovered macro or formula,
enriched with the classifier's score and analysis.  `cell_reference` is
`(sheet_name, column_letter, row)` for formula findings and `none` for
VBA-module findings. -/
structure MacroFinding where
  item_number : Nat
  location : String
  code : String
  score : Int
  analysis : String
  cell_reference : Option (String × String × Nat) := none
deriving DecidableEq, Repr

/-! ## `openpyxl.utils.get_column_letter` -/

/-- Worker for `get_column_letter`; fuel-structural so it evaluates in
the kernel (the fuel is always at least the column index, which bounds
the recursion depth). -/
def columnLetterAux : Nat → Nat → String
  | _, 0 => ""
  | 0, _ => ""
  | fuel + 1, n + 1 =>
    columnLetterAux fuel (n / 26) ++ String.mk [Char.ofNat (65 + n % 26)]

/-- `openpyxl.utils.get_column_letter`: 1-based column index to the
bijective base-26 letter string (1 ↦ "A", 26 ↦ "Z", 27 ↦ "AA", …). -/
def get_column_letter (n : Nat) : String :=
  columnLetterAux n n

/-! ## Classifier adapter: `analyze_code_with_claude`

The external oracle (`query(...)`) is modelled by an `OracleRun`: the
text blocks of the assistant messages it yields, in order, followed
optionally by a raised exception (`failure`).  The adapter's `try` body
consumes the messages one by one; if `failure` is set, the `except`
branch runs after the delivered messages have been processed. -/

/-- One content block of an assistant message; the code only reads
`TextBlock`s and ignores every other block kind. -/
inductive ContentBlock
  | text (s : String)
  | other
deriving DecidableEq, Repr

/-- One run of the external classifier: the blocks of each assistant
message, then an optional exception (its `str(e)` detail). -/
structure OracleRun where
  messages : List (List ContentBlock)
  failure : Option String := none
deriving DecidableEq, Repr

/-- `score = max(1, min(10, score))` — clamp a parsed score into 1..10. -/
def clampScore (n : Int) : Int :=
  max 1 (min 10 n)

/-- One iteration of the `for line in lines` loop: a `SCORE:` line that
parses updates the score (clamped); a parse failure is swallowed
(`except ValueError: pass`); an `ANALYSIS:` line replaces the analysis. -/
def parseLine (st : Int × String) (line : String) : Int × String :=
  if pyStartsWith line "SCORE:" then
    match pyInt (pyStrip (pyReplace line "SCORE:" "")) with
    | some n => (clampScore n, st.2)
    | none => st
  else if pyStartsWith line "ANALYSIS:" then
    (st.1, pyStrip (pyReplace line "ANALYSIS:" ""))
  else st

/-- The `for line in lines` loop over one `TextBlock`'s text:
`lines = text.strip().split("\n")`, folded with `parseLine`. -/
def parseLinesFold (st : Int × String) (text : String) : Int × String :=
  (pySplit (pyStrip text) "\n").foldl parseLine st

/-- The fallback applied after the line loop: when the analysis is still
the sentinel but `"ANALYSIS:"` occurs in the text, take what follows its
first occurrence (`text.split("ANALYSIS:")[1].strip()`). -/
def parseBlockText (st : Int × String) (text : String) : Int × String :=
  match pySplit text "ANALYSIS:" with
  | _ :: second :: _ =>
    if (parseLinesFold st text).2 = "Unable to analyze" then
      ((parseLinesFold st text).1, pyStrip second)
    else parseLinesFold st text
  | _ => parseLinesFold st text

/-- Processing of one content block (`if isinstance(block, TextBlock)`). -/
def parseBlock (st : Int × String) (b : ContentBlock) : Int × String :=
  match b with
  | .text s => parseBlockText st s
  | .other => st

/-- Processing of one assistant message: fold over its blocks. -/
def parseMessage (st : Int × String) (blocks : List ContentBlock) : Int × String :=
  blocks.foldl parseBlock st

/-- `analyze_code_with_claude(code, location)`: starts from the defaults
`(5, "Unable to analyze")`, folds the oracle's messages, and if the
oracle raised, overwrites the analysis with the error detail while
keeping whatever score had been parsed so far.  The `code` and
`location` arguments only feed the prompt, so they do not influence the
parsing of the (independently modelled) oracle run. -/
def analyze_code_with_claude (code location : String) (run : OracleRun) :
    Int × String :=
  match run.failure with
  | none => run.messages.foldl parseMessage (5, "Unable to analyze")
  | some e =>
    ((run.messages.foldl parseMessage (5, "Unable to analyze")).1,
     "Error during analysis: " ++ e)

/-! ## ODS document model and `_detect_ods_formulas`

An ODS cell is modelled by the attributes and children the checker
reads or writes: `numbercolumnsrepeated`, `formula`, the text
paragraphs (`P` children) and the `stylename` attribute. -/

/-- One `TableCell` element of an ODS table row. -/
structure OdsCell where
  numbercolumnsrepeated : Option String := none
  formula : Option String := none
  text : List String := []
  stylename : Option String := none
deriving DecidableEq, Repr

/-- One `TableRow` element. -/
structure OdsRow where
  cells : List OdsCell
deriving DecidableEq, Repr

/-- One `Table` element (`name` attribute may be absent). -/
structure OdsTable where
  name : Option String := none
  rows : List OdsRow
deriving DecidableEq, Repr

/-- An opened ODS document: its tables plus the names of the automatic
styles registered on it (the sanitizer adds one). -/
structure OdsDoc where
  tables : List OdsTable
  automaticstyles : List String := []
deriving DecidableEq, Repr

/-- One entry of the `formula_cells` list that `_detect_ods_formulas`
returns: `(location, formula, sheet_name, col_num, row_num)`. -/
structure FormulaCell where
  location : String
  formula : String
  sheet_name : String
  col : Nat
  row : Nat
deriving DecidableEq, Repr

/-- The fragment(s) the `# Get formula` part of the loop produces for
one cell at 1-based column `colNum`: one fragment when the `formula`
attribute is truthy, none otherwise. -/
def odsCellFrags (sheet : String) (rowNum colNum : Nat) (c : OdsCell) :
    List FormulaCell :=
  match c.formula with
  | some f =>
    if f = "" then []
    else
      [{ location := sheet ++ "!" ++ get_column_letter colNum ++ toString rowNum,
         formula := f, sheet_name := sheet, col := colNum, row := rowNum }]
  | none => []

/-- The `for cell in cells` loop of `_detect_ods_formulas`, threading
`col_num`.  Every cell first advances the counter by one; a truthy
`numbercolumnsrepeated` attribute that parses to a count above 100
additionally advances it by `count - 1` and skips the cell (`continue`)
— the formula attribute is not consulted in that case.  A parse failure
is swallowed and the cell is treated normally. -/
def odsRowWalk (sheet : String) (rowNum : Nat) :
    List OdsCell → Nat → List FormulaCell
  | [], _ => []
  | c :: rest, colNum =>
    let col := colNum + 1
    match c.numbercolumnsrepeated with
    | some rep =>
      if rep = "" then
        odsCellFrags sheet rowNum col c ++ odsRowWalk sheet rowNum rest col
      else
        match pyInt rep with
        | some k =>
          if k > 100 then odsRowWalk sheet rowNum rest (col + (k - 1).toNat)
          else odsCellFrags sheet rowNum col c ++ odsRowWalk sheet rowNum rest col
        | none =>
          odsCellFrags sheet rowNum col c ++ odsRowWalk sheet rowNum rest col
    | none =>
      odsCellFrags sheet rowNum col c ++ odsRowWalk sheet rowNum rest col

/-- The `for row in rows` loop, threading the 1-based `row_num`. -/
def odsTableWalk (sheet : String) : List OdsRow → Nat → List FormulaCell
  | [], _ => []
  | r :: rest, rowNum =>
    odsRowWalk sheet (rowNum + 1) r.cells 0 ++ odsTableWalk sheet rest (rowNum + 1)

/-- `_detect_ods_formulas`: walk every table of the document;
the sheet name falls back to `"Sheet"` when the attribute is absent or
empty. -/
def _detect_ods_formulas (doc : OdsDoc) : List FormulaCell :=
  (doc.tables.map (fun t => odsTableWalk (pyOr t.name "Sheet") t.rows 0)).flatten

/-! ## Scan loop (formula phase of `scan_file`)

For each detected formula cell the checker increments `item_counter`,
asks the classifier, and records a `MacroFinding` whose
`cell_reference` is `(sheet_name, get_column_letter(col), row)`.
The oracle is modelled as a function from the item number to that
call's `OracleRun`. -/

def scan_formula_phase (oracle : Nat → OracleRun) (counter : Nat) :
    List FormulaCell → List MacroFinding
  | [] => []
  | fc :: rest =>
    let n := counter + 1
    let res := analyze_code_with_claude fc.formula fc.location (oracle n)
    { item_number := n, location := fc.location, code := fc.formula,
      score := res.1, analysis := res.2,
      cell_reference := some (fc.sheet_name, get_column_letter fc.col, fc.row) }
      :: scan_formula_phase oracle n rest

/-! ## Excel workbook model and `_create_sanitized_excel` -/

/-- The parts of an openpyxl cell the sanitizer writes. -/
structure ExcelCellData where
  value : Option String := none
  fill : Option String := none
deriving DecidableEq, Repr

/-- One worksheet: its title and the cells addressed by
`(column_letter, row)`; absent keys behave like empty cells
(openpyxl materializes them on access). -/
structure ExcelSheet where
  name : String
  cells : List ((String × Nat) × ExcelCellData)
deriving DecidableEq, Repr

/-- An openpyxl workbook. -/
structure Workbook where
  sheets : List ExcelSheet
deriving DecidableEq, Repr

/-- The cell content `cell.value = ...; cell.fill = yellow_fill`
produces: the placeholder text and the solid FFFF00 fill. -/
def redactedCellData (item : Nat) : ExcelCellData :=
  { value := some ("CODE REMOVED: Item #" ++ toString item),
    fill := some "FFFF00" }

/-- Write the redacted content at `(colLetter, row)` of a sheet,
materializing the cell if absent. -/
def setCellData (sh : ExcelSheet) (colLetter : String) (row : Nat) (item : Nat) :
    ExcelSheet :=
  if sh.cells.any (fun kv => kv.1 = (colLetter, row)) then
    { sh with cells := sh.cells.map (fun kv =>
        if kv.1 = (colLetter, row) then (kv.1, redactedCellData item) else kv) }
  else
    { sh with cells := sh.cells ++ [((colLetter, row), redactedCellData item)] }

/-- `output_wb[sheet_name]`: update the first sheet with that title;
`none` models the `KeyError` raised when no sheet has it. -/
def updateFirstSheet : List ExcelSheet → String → (ExcelSheet → ExcelSheet) →
    Option (List ExcelSheet)
  | [], _, _ => none
  | s :: rest, nm, f =>
    if s.name = nm then some (f s :: rest)
    else (updateFirstSheet rest nm f).map (fun l => s :: l)

/-- The `for finding in self.findings` loop of `_create_sanitized_excel`,
threading the workbook copy and `items_removed`; `none` models an
exception escaping the loop (missing sheet), which aborts the whole
function before the copy is saved. -/
def excelSanitizeLoop (thr : Int) :
    List MacroFinding → Workbook → Nat → Option (Workbook × Nat)
  | [], wb, n => some (wb, n)
  | f :: rest, wb, n =>
    if f.score < thr then
      match f.cell_reference with
      | some (sheetName, colLetter, row) =>
        match updateFirstSheet wb.sheets sheetName
            (fun s => setCellData s colLetter row f.item_number) with
        | some sheets => excelSanitizeLoop thr rest { sheets := sheets } (n + 1)
        | none => none
      | none => excelSanitizeLoop thr rest wb n
    else excelSanitizeLoop thr rest wb n

/-! ## File system model -/

/-- Contents of a file on disk, as far as the two loaders see them. -/
inductive FileData
  | excel (wb : Workbook)
  | ods (doc : OdsDoc)
  | other
deriving DecidableEq

/-- A file system: paths to contents. -/
def FS : Type := String → Option FileData

/-- Writing one file. -/
def FS.update (fs : FS) (p : String) (v : FileData) : FS :=
  fun q => if q = p then some v else fs q

/-- The outcome of a sanitizer call: the Python return value (`retval`,
a boolean — `True` on success), the final value of the local
`items_removed` counter (printed, not returned; 0 when an exception
aborted the function), and the resulting file system. -/
structure SanitizeResult where
  retval : Bool
  itemsRemoved : Nat
  fs : FS

/-- `_create_sanitized_excel(output_file)`: freshly load the input as a
workbook copy, rewrite every finding with `score < threshold` and a
`cell_reference`, and save the copy to the output path.  A load failure
or a missing sheet lands in the `except` branch: `False`, nothing
written. -/
def _create_sanitized_excel (fs : FS) (input output : String)
    (findings : List MacroFinding) (thr : Int) : SanitizeResult :=
  match fs input with
  | some (.excel wb) =>
    match excelSanitizeLoop thr findings wb 0 with
    | some (wb', n) =>
      { retval := true, itemsRemoved := n, fs := fs.update output (.excel wb') }
    | none => { retval := false, itemsRemoved := 0, fs := fs }
  | _ => { retval := false, itemsRemoved := 0, fs := fs }

/-! ## `_create_sanitized_ods` -/

/-- The redaction applied to one matched ODS cell: drop the `formula`
attribute, replace the text paragraphs with the placeholder, and set
the yellow background style. -/
def redactOdsCell (item : Nat) (c : OdsCell) : OdsCell :=
  { c with formula := none,
           text := ["CODE REMOVED: Item #" ++ toString item],
           stylename := some "YellowBackground" }

/-- The `cells_to_sanitize[(sheet_name, row)]` list: the
`(column_letter, item_number)` pairs of the findings below threshold
with a `cell_reference` on that sheet and row, in findings order
(the dict accumulates them in exactly that order). -/
def targetsFor (findings : List MacroFinding) (thr : Int)
    (sheet : String) (rowNum : Nat) : List (String × Nat) :=
  findings.filterMap (fun f =>
    if f.score < thr then
      match f.cell_reference with
      | some (s, colLetter, r) =>
        if s = sheet ∧ r = rowNum then some (colLetter, f.item_number) else none
      | none => none
    else none)

/-- The `for target_col, item_num in cells_to_sanitize[key]` loop over
one cell: each matching target redacts the cell and bumps the counter. -/
def applyTargets (colLetter : String) (targets : List (String × Nat))
    (c : OdsCell) : OdsCell × Nat :=
  targets.foldl (fun st t =>
    if colLetter = t.1 then (redactOdsCell t.2 st.1, st.2 + 1) else st) (c, 0)

/-- The sanitizer's `for cell in cells` loop: note that it advances
`col_num` by exactly one per cell element — unlike the extractor, it
has no handling of `numbercolumnsrepeated` at all. -/
def sanitizeOdsRowCells (targets : List (String × Nat)) :
    List OdsCell → Nat → List OdsCell × Nat
  | [], _ => ([], 0)
  | c :: rest, colNum =>
    let col := colNum + 1
    let p := applyTargets (get_column_letter col) targets c
    let q := sanitizeOdsRowCells targets rest col
    (p.1 :: q.1, p.2 + q.2)

/-- The sanitizer's `for row in rows` loop. -/
def sanitizeOdsRows (findings : List MacroFinding) (thr : Int) (sheet : String) :
    List OdsRow → Nat → List OdsRow × Nat
  | [], _ => ([], 0)
  | r :: rest, rowNum =>
    let row := rowNum + 1
    let p := sanitizeOdsRowCells (targetsFor findings thr sheet row) r.cells 0
    let q := sanitizeOdsRows findings thr sheet rest row
    ({ cells := p.1 } :: q.1, p.2 + q.2)

/-- One table of the output document. -/
def sanitizeOdsTable (findings : List MacroFinding) (thr : Int) (t : OdsTable) :
    OdsTable × Nat :=
  let p := sanitizeOdsRows findings thr (pyOr t.name "Sheet") t.rows 0
  ({ t with rows := p.1 }, p.2)

/-- The in-memory rewriting `_create_sanitized_ods` performs on the
loaded copy: register the `YellowBackground` automatic style, then walk
every table.  Returns the rewritten document and `items_removed`. -/
def sanitizeOdsDoc (findings : List MacroFinding) (thr : Int) (doc : OdsDoc) :
    OdsDoc × Nat :=
  let ps := doc.tables.map (sanitizeOdsTable findings thr)
  ({ tables := ps.map Prod.fst,
     automaticstyles := doc.automaticstyles ++ ["YellowBackground"] },
   (ps.map Prod.snd).sum)

/-- `_create_sanitized_ods(output_file)`: `shutil.copy2` the input to
the output path, load the copy, rewrite it, save it back.  A missing
input fails before anything is written; a non-ODS input is copied but
fails to load, leaving the raw copy at the output path. -/
def _create_sanitized_ods (fs : FS) (input output : String)
    (findings : List MacroFinding) (thr : Int) : SanitizeResult :=
  match fs input with
  | some (.ods doc) =>
    let p := sanitizeOdsDoc findings thr doc
    { retval := true, itemsRemoved := p.2, fs := fs.update output (.ods p.1) }
  | some fd => { retval := false, itemsRemoved := 0, fs := fs.update output fd }
  | none => { retval := false, itemsRemoved := 0, fs := fs }

/-! ## `create_sanitized_copy` and the checker state -/

/-- `self.file_type`. -/
inductive FileType
  | excel
  | ods
deriving DecidableEq, Repr

/-- The `MacroChecker` attributes the sanitizer methods can see. -/
structure MacroChecker where
  input_file : String
  remove_threshold : Int
  findings : List MacroFinding
  workbook : Option Workbook := none
  ods_doc : Option OdsDoc := none
  item_counter : Nat := 0
  file_type : Option FileType := none

/-- `create_sanitized_copy(output_file)`: dispatch on the file type;
an unknown type returns `False` and writes nothing. -/
def create_sanitized_copy (file_type : Option FileType) (fs : FS)
    (input output : String) (findings : List MacroFinding) (thr : Int) :
    SanitizeResult :=
  match file_type with
  | some .excel => _create_sanitized_excel fs input output findings thr
  | some .ods => _create_sanitized_ods fs input output findings thr
  | none => { retval := false, itemsRemoved := 0, fs := fs }

/-- The method call `checker.create_sanitized_copy(output_file)` as a
state transformer: it reads `input_file`, `findings`, `remove_threshold`
and `file_type` from the instance and assigns no attribute, so the
instance comes back as it went in. -/
def create_sanitized_copy_run (st : MacroChecker) (fs : FS) (output : String) :
    SanitizeResult × MacroChecker :=
  (create_sanitized_copy st.file_type fs st.input_file output
     st.findings st.remove_threshold, st)

/-! ## Report renderer: `generate_markdown_report`

The Python method reads `self.findings`, `self.input_file.name`,
`self.remove_threshold` — and the system clock (`datetime.now()`), which
the embedding makes an explicit `timestamp` argument. -/

/-- The comparison `sorted` uses through `key=lambda x: x.score`. -/
def scoreLeR (a b : MacroFinding) : Prop :=
  a.score ≤ b.score

instance (a b : MacroFinding) : Decidable (scoreLeR a b) :=
  inferInstanceAs (Decidable (a.score ≤ b.score))

/-- `sorted(self.findings, key=lambda x: x.score)` — Python's `sorted`
is a stable sort on the score key; `List.insertionSort` with the
non-strict score comparison computes exactly that stable sort. -/
def sortFindingsByScore (findings : List MacroFinding) : List MacroFinding :=
  List.insertionSort scoreLeR findings

/-- One entry of the "Detailed Findings" section: item header, score,
analysis, and the code truncated to 500 characters with a marker. -/
def findingEntry (f : MacroFinding) : String :=
  "### Item #" ++ toString f.item_number ++ ": " ++ f.location ++ "\n\n" ++
  "**Score:** " ++ toString f.score ++ "/10\n\n" ++
  "**Analysis:** " ++ f.analysis ++ "\n\n" ++
  "**Code:**\n```\n" ++ String.mk (f.code.data.take 500) ++
  (if f.code.data.length > 500 then "\n... (truncated)" else "") ++
  "\n```\n\n" ++ "---\n\n"

/-- `generate_markdown_report`: header, band counts, below-threshold
count, then one `findingEntry` per finding in score-sorted order. -/
def generate_markdown_report (fileName timestamp : String) (thr : Int)
    (findings : List MacroFinding) : String :=
  "# Macro Security Analysis Report\n\n" ++
  "**File:** " ++ fileName ++ "\n" ++
  "**Scan Date:** " ++ timestamp ++ "\n" ++
  "**Total Items Found:** " ++ toString findings.length ++ "\n" ++
  "**Removal Threshold:** " ++ toString thr ++ "\n\n" ++
  "## Summary\n\n" ++
  "- **Malicious (1-3):** " ++
    toString (findings.filter (fun f => f.score ≤ 3)).length ++ "\n" ++
  "- **Suspicious (4-6):** " ++
    toString (findings.filter (fun f => 4 ≤ f.score ∧ f.score ≤ 6)).length ++ "\n" ++
  "- **Potentially Risky (7-9):** " ++
    toString (findings.filter (fun f => 7 ≤ f.score ∧ f.score ≤ 9)).length ++ "\n" ++
  "- **Safe (10):** " ++
    toString (findings.filter (fun f => f.score = 10)).length ++ "\n" ++
  "- **Items to be removed (score < " ++ toString thr ++ "):** " ++
    toString (findings.filter (fun f => f.score < thr)).length ++ "\n\n" ++
  "## Detailed Findings\n\n" ++
  String.join ((sortFindingsByScore findings).map findingEntry)

/-! ## Specification-side and auxiliary definitions used in the theorems -/

/-- The value the source's guard `line.startswith("SCORE:")` plus
`int(line.replace("SCORE:", "").strip())` plus clamping extracts from a
single line, `none` when the line is no parseable `SCORE:` line. -/
def scoreOfLine (line : String) : Option Int :=
  if pyStartsWith line "SCORE:" then
    (pyInt (pyStrip (pyReplace line "SCORE:" ""))).map clampScore
  else none

/-- The sanitizers' redaction guard,
`finding.score < self.remove_threshold and finding.cell_reference`. -/
def redactionGuard (thr : Int) (f : MacroFinding) : Bool :=
  decide (f.score < thr) && f.cell_reference.isSome

/-- How far the extractor's column counter moves past one cell: by the
full repeat count for a parseable repeat attribute above 100, and by
exactly one in every other case. -/
def extractionStride (c : OdsCell) : Nat :=
  match c.numbercolumnsrepeated with
  | some rep =>
    if rep = "" then 1
    else
      match pyInt rep with
      | some k => if k > 100 then k.toNat else 1
      | none => 1
  | none => 1

/-- Display order of the report's detailed entries: strictly smaller
score, or equal score and strictly smaller item number. -/
def findingLexLt (a b : MacroFinding) : Prop :=
  a.score < b.score ∨ (a.score = b.score ∧ a.item_number < b.item_number)

instance (a b : MacroFinding) : Decidable (findingLexLt a b) :=
  inferInstanceAs
    (Decidable (a.score < b.score ∨ (a.score = b.score ∧ a.item_number < b.item_number)))

/-! ## Concrete inputs used by the evaluation theorems -/

/-- An ODS sheet whose only row is a 500-wide repeated empty run
followed by one formula cell. -/
def odsDocPaddedFormula : OdsDoc :=
  { tables := [{ name := some "Sheet1",
                 rows := [{ cells := [{ numbercolumnsrepeated := some "500" },
                                      { formula := some "of:=SUM(A1:A2)" }] }] }] }

/-- An ODS sheet whose only cell is a 500-wide repeated run that itself
carries a formula attribute. -/
def odsDocRepeatWithFormula : OdsDoc :=
  { tables := [{ name := some "Sheet1",
                 rows := [{ cells := [{ numbercolumnsrepeated := some "500",
                                        formula := some "of:=SUM(A1:A2)" }] }] }] }

/-- An ODS sheet whose only cell is a 500-wide repeated empty run. -/
def odsDocRepeatEmpty : OdsDoc :=
  { tables := [{ name := some "Sheet1",
                 rows := [{ cells := [{ numbercolumnsrepeated := some "500" }] }] }] }

/-- A classifier that always answers with score 2 (a well-formed,
below-default-threshold reply). -/
def odsOracleScore2 : Nat → OracleRun :=
  fun _ => { messages := [[ContentBlock.text "SCORE: 2\nANALYSIS: malicious pattern"]] }

/-- A disk holding `odsDocPaddedFormula` at `"in.ods"`. -/
def fsOdsPadded : FS :=
  fun p => if p = "in.ods" then some (.ods odsDocPaddedFormula) else none

/-- The findings the pipeline produces for `odsDocPaddedFormula` under
`odsOracleScore2`. -/
def findingsOdsPadded : List MacroFinding :=
  scan_formula_phase odsOracleScore2 0 (_detect_ods_formulas odsDocPaddedFormula)

/-- A finding addressed at column letter "B", row 1 of Sheet1. -/
def findingColB : MacroFinding :=
  { item_number := 1, location := "Sheet1!B1", code := "of:=2", score := 2,
    analysis := "x", cell_reference := some ("Sheet1", "B", 1) }

/-- The repeat-500 cell on its own, for the stride witness. -/
def cellRepeat500 : OdsCell :=
  { numbercolumnsrepeated := some "500" }

/-- A one-sheet Excel workbook with one stored cell. -/
def wbOneSheet : Workbook :=
  { sheets := [{ name := "Sheet1",
                 cells := [(("A", 1), { value := some "=SUM(1,2)" })] }] }

/-- A disk holding `wbOneSheet` at `"in.xlsx"`. -/
def fsExcelOne : FS :=
  fun p => if p = "in.xlsx" then some (.excel wbOneSheet) else none

/-- Two below-threshold findings with cell references on Sheet1. -/
def findingA1 : MacroFinding :=
  { item_number := 1, location := "Sheet1!A1", code := "=1", score := 2,
    analysis := "a", cell_reference := some ("Sheet1", "A", 1) }

def findingB2 : MacroFinding :=
  { item_number := 2, location := "Sheet1!B2", code := "=2", score := 3,
    analysis := "b", cell_reference := some ("Sheet1", "B", 2) }

/-- A checker instance about to sanitize `fsExcelOne`'s workbook. -/
def checkerExcelOne : MacroChecker :=
  { input_file := "in.xlsx", remove_threshold := 5,
    findings := [findingA1], file_type := some .excel }

/-- An oracle run that yields a score of 3 and then raises. -/
def oracleRunPartialThenFail : OracleRun :=
  { messages := [[ContentBlock.text "SCORE: 3\nANALYSIS: partial"]],
    failure := some "timeout" }

/-- An oracle run whose reply carries two `SCORE:` lines, 3 then 9. -/
def oracleRunTwoScores : OracleRun :=
  { messages := [[ContentBlock.text "SCORE: 3\nSCORE: 9\nANALYSIS: two score lines"]] }

/-- Three findings in discovery order with scores 8, 3, 3. -/
def findingsForSort : List MacroFinding :=
  [{ item_number := 1, location := "A1", code := "code1", score := 8, analysis := "r1" },
   { item_number := 2, location := "A2", code := "code2", score := 3, analysis := "r2" },
   { item_number := 3, location := "A3", code := "code3", score := 3, analysis := "r3" }]

/-! ## Helper lemmas -/

theorem clampScore_bounds (n : Int) : 1 ≤ clampScore n ∧ clampScore n ≤ 10 := by
  unfold clampScore
  exact ⟨le_max_left 1 _, max_le (by norm_num) (min_le_left 10 n)⟩

theorem parseLine_bounds (st : Int × String) (line : String)
    (h : 1 ≤ st.1 ∧ st.1 ≤ 10) :
    1 ≤ (parseLine st line).1 ∧ (parseLine st line).1 ≤ 10 := by
  unfold parseLine
  split
  · split
    · exact clampScore_bounds _
    · exact h
  · split
    · exact h
    · exact h

theorem foldl_bounds_preserved {α : Type} (f : Int × String → α → Int × String)
    (hf : ∀ st a, 1 ≤ st.1 ∧ st.1 ≤ 10 → 1 ≤ (f st a).1 ∧ (f st a).1 ≤ 10) :
    ∀ (l : List α) (st : Int × String), 1 ≤ st.1 ∧ st.1 ≤ 10 →
      1 ≤ (l.foldl f st).1 ∧ (l.foldl f st).1 ≤ 10
  | [], _, h => h
  | a :: l, st, h => foldl_bounds_preserved f hf l (f st a) (hf st a h)

theorem parseBlockText_fst (st : Int × String) (text : String) :
    (parseBlockText st text).1 = (parseLinesFold st text).1 := by
  unfold parseBlockText
  split
  · split <;> rfl
  · rfl

theorem parseBlockText_bounds (st : Int × String) (text : String)
    (h : 1 ≤ st.1 ∧ st.1 ≤ 10) :
    1 ≤ (parseBlockText st text).1 ∧ (parseBlockText st text).1 ≤ 10 := by
  rw [parseBlockText_fst]
  exact foldl_bounds_preserved parseLine parseLine_bounds _ st h

theorem parseBlock_bounds (st : Int × String) (b : ContentBlock)
    (h : 1 ≤ st.1 ∧ st.1 ≤ 10) :
    1 ≤ (parseBlock st b).1 ∧ (parseBlock st b).1 ≤ 10 := by
  unfold parseBlock
  split
  · exact parseBlockText_bounds st _ h
  · exact h

theorem parseMessage_bounds (st : Int × String) (blocks : List ContentBlock)
    (h : 1 ≤ st.1 ∧ st.1 ≤ 10) :
    1 ≤ (parseMessage st blocks).1 ∧ (parseMessage st blocks).1 ≤ 10 :=
  foldl_bounds_preserved parseBlock parseBlock_bounds blocks st h

/-! ## Claim C4 -/

/-- C4 (confirmed): every score `analyze_code_with_claude` returns lies
in `[1, 10]`, whatever the oracle yields — empty, malformed, out of
range, or raising — because the default is 5 and every accepted parse is
clamped by `max(1, min(10, score))`. -/
theorem c4_score_always_in_range (code location : String) (run : OracleRun) :
    1 ≤ (analyze_code_with_claude code location run).1 ∧
    (analyze_code_with_claude code location run).1 ≤ 10 := by
  have h := foldl_bounds_preserved parseMessage parseMessage_bounds
    run.messages (5, "Unable to analyze") (by norm_num)
  unfold analyze_code_with_claude
  split
  · exact h
  · exact h

/-! ## Claim C2 -/

/-- C2 (counterexample): when the oracle yields a message whose reply
already carried `SCORE: 3` and then raises, the call returns score 3 —
not the default 5 — together with the error rationale.  So "on any
exception ... it returns the default score 5" is false as stated. -/
theorem c2_partial_score_survives_failure :
    analyze_code_with_claude "=X()" "Sheet1!A1" oracleRunPartialThenFail
      = (3, "Error during analysis: timeout") ∧
    (analyze_code_with_claude "=X()" "Sheet1!A1" oracleRunPartialThenFail).1 ≠ 5 := by
  constructor
  · rfl
  · decide

/-- C2 (amended): the adapter is total (it cannot raise — it is a plain
function into `Int × String`); on any oracle exception the rationale is
the error string carrying the detail, and the score is the default 5
whenever the oracle raised before delivering any message.  (A `SCORE:`
line parsed from a message delivered before the failure survives it.) -/
theorem c2_failure_is_failsoft (code location e : String)
    (msgs : List (List ContentBlock)) :
    (analyze_code_with_claude code location
        { messages := msgs, failure := some e }).2
      = "Error during analysis: " ++ e ∧
    analyze_code_with_claude code location { messages := [], failure := some e }
      = (5, "Error during analysis: " ++ e) :=
  ⟨rfl, rfl⟩

/-! ## Claim C3 -/

/-- C3 (code bug): a repeated run with `numbercolumnsrepeated="500"` is
skipped whole — producing no fragment — whether or not its (first) cell
carries a formula attribute: the `repeat_count > 100` guard `continue`s
before the formula attribute is read, although the code's own comment
says it skips *empty* repeated columns.  The first conjunct is the
intended behaviour, the second is the bug. -/
theorem c3_repeat_run_skipped_even_with_formula :
    _detect_ods_formulas odsDocRepeatEmpty = [] ∧
    _detect_ods_formulas odsDocRepeatWithFormula = [] :=
  ⟨rfl, rfl⟩

/-! ## Claim C9 -/

/-- C9 (counterexample): for a reply whose lines are `SCORE: 3`,
`SCORE: 9`, `ANALYSIS: ...`, the resulting score is 9 — the value of the
*last* parseable `SCORE:` line — while the first such line carries 3.
The line loop has no break, so each parseable `SCORE:` line overwrites
the previous value. -/
theorem c9_first_score_line_does_not_win :
    (analyze_code_with_claude "=1" "Sheet1!A1" oracleRunTwoScores).1 = 9 ∧
    scoreOfLine "SCORE: 3" = some 3 ∧ (9 : Int) ≠ 3 := by
  refine ⟨rfl, rfl, by decide⟩

/-- C9 (amended): the score is taken from the last parseable `SCORE:`
line: a final message consisting of one such line determines the
returned score no matter what any earlier messages carried. -/
theorem c9_last_score_line_wins (code location t : String) (n : Int)
    (msgs : List (List ContentBlock))
    (hline : scoreOfLine t = some n)
    (hsingle : pySplit (pyStrip t) "\n" = [t]) :
    (analyze_code_with_claude code location
        { messages := msgs ++ [[ContentBlock.text t]], failure := none }).1 = n := by
  unfold analyze_code_with_claude
  rw [List.foldl_append]
  show (parseMessage (List.foldl parseMessage (5, "Unable to analyze") msgs)
    [ContentBlock.text t]).1 = n
  unfold parseMessage
  show (parseBlock (List.foldl parseMessage (5, "Unable to analyze") msgs)
    (ContentBlock.text t)).1 = n
  unfold parseBlock
  rw [parseBlockText_fst]
  unfold parseLinesFold
  rw [hsingle]
  show (parseLine (List.foldl parseMessage (5, "Unable to analyze") msgs) t).1 = n
  unfold scoreOfLine at hline
  unfold parseLine
  by_cases hs : pyStartsWith t "SCORE:" = true
  · rw [if_pos hs] at hline ⊢
    rcases Option.map_eq_some'.mp hline with ⟨m, hm, hcl⟩
    rw [hm]
    exact hcl
  · rw [if_neg hs] at hline
    exact absurd hline (by simp)

/-- Witness for `c9_last_score_line_wins`: an earlier `SCORE: 3` message
followed by a final `SCORE: 9` message yields score 9. -/
theorem c9_last_score_line_wins_witness :
    (analyze_code_with_claude "c" "l"
        { messages := [[ContentBlock.text "SCORE: 3"]] ++ [[ContentBlock.text "SCORE: 9"]],
          failure := none }).1 = 9 :=
  c9_last_score_line_wins "c" "l" "SCORE: 9" 9 [[ContentBlock.text "SCORE: 3"]]
    (by decide) (by decide)

/-! ## Claim C7 -/

/-- C7 (counterexample): the report is *not* a function of the findings
and metadata alone — `generate_markdown_report` reads the system clock
(`datetime.now()`), so two calls with identical findings and metadata
but different clock readings produce different bytes. -/
theorem c7_report_depends_on_clock :
    generate_markdown_report "test.xlsx" "2025-01-01 00:00:00" 5 []
      ≠ generate_markdown_report "test.xlsx" "2025-01-02 00:00:00" 5 [] := by
  decide

/-- C7 (amended): report rendering is a pure, deterministic function of
the findings list, the metadata, and the generation timestamp read from
the clock: byte-identical output whenever all of those coincide. -/
theorem c7_report_deterministic (fileName : String) (t1 t2 : String)
    (thr : Int) (findings : List MacroFinding) (h : t1 = t2) :
    generate_markdown_report fileName t1 thr findings
      = generate_markdown_report fileName t2 thr findings := by
  rw [h]

/-- Witness for `c7_report_deterministic` at a concrete input. -/
theorem c7_report_deterministic_witness :
    generate_markdown_report "test.xlsx" "2025-01-01 00:00:00" 5 [findingA1]
      = generate_markdown_report "test.xlsx" "2025-01-01 00:00:00" 5 [findingA1] :=
  c7_report_deterministic "test.xlsx" _ _ 5 [findingA1] rfl

/-! ## Claim C1 -/

/-- C1 (code bug, failing input): on `odsDocPaddedFormula` the pipeline
produces exactly one finding — score 2 (below the default threshold 5)
with `cell_reference = ("Sheet1", "SG", 1)`, since extraction numbers
the formula cell as column 501 — yet `_create_sanitized_ods` redacts
nothing: its own walk numbers the same cell element as column 2 ("B")
because it ignores `numbercolumnsrepeated`, so no cell matches and the
below-threshold `CellOrigin` finding survives unredacted (the output
tables equal the input tables). -/
theorem c1_ods_below_threshold_finding_not_redacted :
    findingsOdsPadded
      = [{ item_number := 1, location := "Sheet1!SG1",
           code := "of:=SUM(A1:A2)", score := 2,
           analysis := "malicious pattern",
           cell_reference := some ("Sheet1", "SG", 1) }] ∧
    (_create_sanitized_ods fsOdsPadded "in.ods" "out.ods" findingsOdsPadded 5).retval
      = true ∧
    (_create_sanitized_ods fsOdsPadded "in.ods" "out.ods" findingsOdsPadded 5).itemsRemoved
      = 0 ∧
    (match (_create_sanitized_ods fsOdsPadded "in.ods" "out.ods" findingsOdsPadded 5).fs
        "out.ods" with
     | some (.ods d) => d.tables
     | _ => []) = odsDocPaddedFormula.tables := by
  refine ⟨rfl, rfl, rfl, rfl⟩

/-! ## Claim C10 -/

/-- C10 (counterexample): in the *sanitizer's* walk a repeat-500 run
does **not** advance the column counter by the full count: the cell
element following it is treated as column 2 ("B"), so a finding
addressed at "B" is redacted (count 1) — under the claim that cell would
sit at column 501 and nothing would match. -/
theorem c10_sanitizer_counter_ignores_large_repeat :
    (sanitizeOdsDoc [findingColB] 5 odsDocPaddedFormula).2 = 1 ∧
    (sanitizeOdsDoc [findingColB] 5 odsDocPaddedFormula).1.tables
      = [{ name := some "Sheet1",
           rows := [{ cells := [{ numbercolumnsrepeated := some "500" },
                                { formula := none,
                                  text := ["CODE REMOVED: Item #1"],
                                  stylename := some "YellowBackground" }] }] }] :=
  ⟨rfl, rfl⟩

/-- C10 (amended): in extraction, a cell whose repeat attribute parses
to `k ≤ 100` advances the column counter by exactly one, and only
`k > 100` advances it by the full count (`extractionStride`); in the
sanitizer's walk the counter advances by exactly one per cell element
regardless of the repeat attribute. -/
theorem c10_column_counter_strides (sheet : String) (rowNum : Nat)
    (c : OdsCell) (rest : List OdsCell) (colNum : Nat) (rep : String) (k : Int)
    (hrep : c.numbercolumnsrepeated = some rep) (hne : rep ≠ "")
    (hk : pyInt rep = some k) :
    (k ≤ 100 →
      odsRowWalk sheet rowNum (c :: rest) colNum
        = odsCellFrags sheet rowNum (colNum + 1) c
            ++ odsRowWalk sheet rowNum rest (colNum + 1)) ∧
    (100 < k →
      odsRowWalk sheet rowNum (c :: rest) colNum
        = odsRowWalk sheet rowNum rest (colNum + extractionStride c)) ∧
    (∀ targets : List (String × Nat),
      sanitizeOdsRowCells targets (c :: rest) colNum
        = ((applyTargets (get_column_letter (colNum + 1)) targets c).1
             :: (sanitizeOdsRowCells targets rest (colNum + 1)).1,
           (applyTargets (get_column_letter (colNum + 1)) targets c).2
             + (sanitizeOdsRowCells targets rest (colNum + 1)).2)) := by
  refine ⟨?_, ?_, ?_⟩
  · intro hle
    simp only [odsRowWalk, hrep, if_neg hne, hk]
    rw [if_neg (by omega)]
  · intro hgt
    simp only [odsRowWalk, hrep, if_neg hne, hk]
    rw [if_pos (by omega)]
    simp only [extractionStride, hrep, if_neg hne, hk,
      if_pos (show k > 100 from hgt)]
    have heq : colNum + 1 + (k - 1).toNat = colNum + k.toNat := by omega
    rw [heq]
  · intro targets
    simp only [sanitizeOdsRowCells]

/-- Witness for `c10_column_counter_strides`: the repeat-500 cell makes
the extractor's counter jump by 500 while the sanitizer's counter moves
by one. -/
theorem c10_column_counter_strides_witness :
    (odsRowWalk "S" 1 [cellRepeat500] 0 = odsRowWalk "S" 1 [] (0 + extractionStride cellRepeat500)) ∧
    sanitizeOdsRowCells [] [cellRepeat500] 0
      = ((applyTargets (get_column_letter 1) [] cellRepeat500).1
           :: (sanitizeOdsRowCells [] [] 1).1,
         (applyTargets (get_column_letter 1) [] cellRepeat500).2
           + (sanitizeOdsRowCells [] [] 1).2) := by
  have h := c10_column_counter_strides "S" 1 cellRepeat500 [] 0 "500" 500
    rfl (by decide) (by decide)
  exact ⟨h.2.1 (by norm_num), h.2.2 []⟩

/-! ## Claim C5 -/

theorem FS_update_ne (fs : FS) (q : String) (v : FileData) (p : String)
    (h : p ≠ q) : FS.update fs q v p = fs p :=
  if_neg h

/-- C5 (confirmed): `create_sanitized_copy` never mutates the checker
instance (so neither the loaded `workbook`/`ods_doc` used for
extraction nor the findings), and the only path it may write is the
output path: every other file — in particular the input file, which the
caller gives a distinct name — is unchanged. -/
theorem c5_sanitize_never_mutates_original (st : MacroChecker) (fs : FS)
    (output p : String) (hp : p ≠ output) :
    (create_sanitized_copy_run st fs output).2 = st ∧
    (create_sanitized_copy_run st fs output).1.fs p = fs p := by
  refine ⟨rfl, ?_⟩
  show (create_sanitized_copy st.file_type fs st.input_file output
    st.findings st.remove_threshold).fs p = fs p
  cases st.file_type with
  | none => rfl
  | some ft =>
    cases ft with
    | excel =>
      show (_create_sanitized_excel fs st.input_file output
        st.findings st.remove_threshold).fs p = fs p
      unfold _create_sanitized_excel
      split
      · split
        · exact FS_update_ne fs output _ p hp
        · rfl
      · rfl
    | ods =>
      show (_create_sanitized_ods fs st.input_file output
        st.findings st.remove_threshold).fs p = fs p
      unfold _create_sanitized_ods
      split
      · exact FS_update_ne fs output _ p hp
      · exact FS_update_ne fs output _ p hp
      · rfl

/-- Witness for `c5_sanitize_never_mutates_original`: sanitizing
`checkerExcelOne` to `"out.xlsx"` leaves the instance and the input
file as they were. -/
theorem c5_sanitize_never_mutates_original_witness :
    (create_sanitized_copy_run checkerExcelOne fsExcelOne "out.xlsx").2
      = checkerExcelOne ∧
    (create_sanitized_copy_run checkerExcelOne fsExcelOne "out.xlsx").1.fs "in.xlsx"
      = fsExcelOne "in.xlsx" :=
  c5_sanitize_never_mutates_original checkerExcelOne fsExcelOne "out.xlsx"
    "in.xlsx" (by decide)

/-! ## Claim C6 -/

theorem setCellData_name (sh : ExcelSheet) (colLetter : String) (row item : Nat) :
    (setCellData sh colLetter row item).name = sh.name := by
  unfold setCellData
  split <;> rfl

theorem updateFirstSheet_names :
    ∀ (l : List ExcelSheet) (nm : String) (g : ExcelSheet → ExcelSheet),
      (∀ s, (g s).name = s.name) → ∀ l' : List ExcelSheet,
      updateFirstSheet l nm g = some l' →
      l'.map (fun s => s.name) = l.map (fun s => s.name)
  | [], _, _, _, l', h => by simp [updateFirstSheet] at h
  | s :: rest, nm, g, hg, l', h => by
    unfold updateFirstSheet at h
    split at h
    · cases h
      simp [hg]
    · cases hur : updateFirstSheet rest nm g with
      | none => rw [hur] at h; cases h
      | some r' =>
        rw [hur] at h
        cases h
        simpa using updateFirstSheet_names rest nm g hg r' hur

theorem updateFirstSheet_total :
    ∀ (l : List ExcelSheet) (nm : String) (g : ExcelSheet → ExcelSheet),
      (l.any fun s => s.name = nm) = true →
      ∃ l', updateFirstSheet l nm g = some l'
  | [], _, _, h => by simp at h
  | s :: rest, nm, g, h => by
    unfold updateFirstSheet
    by_cases hs : s.name = nm
    · rw [if_pos hs]
      exact ⟨_, rfl⟩
    · rw [if_neg hs]
      simp only [List.any_cons, Bool.or_eq_true, decide_eq_true_eq] at h
      rcases h with h | h
      · exact absurd h hs
      · rcases updateFirstSheet_total rest nm g (by simpa using h) with ⟨r', hr⟩
        exact ⟨s :: r', by rw [hr]; rfl⟩

theorem any_name_eq_of_names_eq :
    ∀ (l l2 : List ExcelSheet),
      l.map (fun s => s.name) = l2.map (fun s => s.name) → ∀ nm : String,
      (l.any fun s => s.name = nm) = (l2.any fun s => s.name = nm)
  | [], [], _, _ => rfl
  | [], _ :: _, h, _ => by simp at h
  | _ :: _, [], h, _ => by simp at h
  | a :: l, b :: l2, h, nm => by
    simp only [List.map_cons, List.cons.injEq] at h
    simp only [List.any_cons, h.1, any_name_eq_of_names_eq l l2 h.2 nm]

/-- The redaction loop of `_create_sanitized_excel` succeeds and removes
exactly the findings satisfying the guard, provided each redactable
finding's sheet exists in the workbook (sheet titles are preserved by
the rewrites, so the proviso is stable along the loop). -/
theorem excelSanitizeLoop_spec :
    ∀ (findings : List MacroFinding) (wb : Workbook) (n : Nat) (thr : Int),
      (∀ f ∈ findings, f.score < thr →
        ∀ s cl r, f.cell_reference = some (s, cl, r) →
          (wb.sheets.any fun sh => sh.name = s) = true) →
      ∃ wb', excelSanitizeLoop thr findings wb n
          = some (wb', n + (findings.filter (redactionGuard thr)).length) ∧
        wb'.sheets.map (fun s => s.name) = wb.sheets.map (fun s => s.name)
  | [], wb, n, thr, _ => ⟨wb, by simp [excelSanitizeLoop], rfl⟩
  | f :: rest, wb, n, thr, h => by
    have hrest0 := fun f' hf' => h f' (List.mem_cons_of_mem f hf')
    by_cases hscore : f.score < thr
    · cases hcr : f.cell_reference with
      | none =>
        have hguard : redactionGuard thr f = false := by
          simp [redactionGuard, hcr]
        rcases excelSanitizeLoop_spec rest wb n thr hrest0 with ⟨wb', hloop, hnames⟩
        refine ⟨wb', ?_, hnames⟩
        simp only [excelSanitizeLoop, if_pos hscore, hcr]
        rw [List.filter_cons_of_neg (by simp [hguard])]
        exact hloop
      | some scr =>
        rcases scr with ⟨s, cl, r⟩
        have hany : (wb.sheets.any fun sh => sh.name = s) = true :=
          h f (List.mem_cons_self f rest) hscore s cl r hcr
        rcases updateFirstSheet_total wb.sheets s
          (fun sh => setCellData sh cl r f.item_number) hany with ⟨sheets', hup⟩
        have hnames1 : sheets'.map (fun sh => sh.name)
            = wb.sheets.map (fun sh => sh.name) :=
          updateFirstSheet_names wb.sheets s _
            (fun sh => setCellData_name sh cl r f.item_number) sheets' hup
        have hrest : ∀ f' ∈ rest, f'.score < thr →
            ∀ s' cl' r', f'.cell_reference = some (s', cl', r') →
              ((Workbook.mk sheets').sheets.any fun sh => sh.name = s') = true := by
          intro f' hf' hsc' s' cl' r' hcr'
          rw [show (Workbook.mk sheets').sheets = sheets' from rfl,
            any_name_eq_of_names_eq sheets' wb.sheets hnames1 s']
          exact hrest0 f' hf' hsc' s' cl' r' hcr'
        rcases excelSanitizeLoop_spec rest (Workbook.mk sheets') (n + 1) thr hrest
          with ⟨wb', hloop, hnames2⟩
        have hguard : redactionGuard thr f = true := by
          simp [redactionGuard, hcr, hscore]
        refine ⟨wb', ?_, hnames2.trans hnames1⟩
        simp only [excelSanitizeLoop, if_pos hscore, hcr, hup]
        rw [List.filter_cons_of_pos (by simp [hguard])]
        rw [show n + (f :: List.filter (redactionGuard thr) rest).length
          = (n + 1) + (List.filter (redactionGuard thr) rest).length by
            simp; omega]
        exact hloop
    · have hguard : redactionGuard thr f = false := by
        simp [redactionGuard, hscore]
      rcases excelSanitizeLoop_spec rest wb n thr hrest0 with ⟨wb', hloop, hnames⟩
      refine ⟨wb', ?_, hnames⟩
      simp only [excelSanitizeLoop, if_neg hscore]
      rw [List.filter_cons_of_neg (by simp [hguard])]
      exact hloop

/-- C6 (counterexample): `create_sanitized_copy` does *not* return the
redacted-cell count — the Python function returns the boolean `True` on
success (`return True`), while the count lives in the local
`items_removed` (only printed).  Here two findings are redacted: the
return value is the boolean `true`, not the number 2 (even read as an
integer, Python's `True` is 1 ≠ 2). -/
theorem c6_retval_is_flag_not_count :
    (create_sanitized_copy (some .excel) fsExcelOne "in.xlsx" "out.xlsx"
        [findingA1, findingB2] 5).retval = true ∧
    (create_sanitized_copy (some .excel) fsExcelOne "in.xlsx" "out.xlsx"
        [findingA1, findingB2] 5).itemsRemoved = 2 :=
  ⟨rfl, rfl⟩

/-- C6 (amended): `create_sanitized_copy` returns a success flag, not a
count; the count of redacted cells — the local `items_removed`, which
the function prints — equals, in the Excel variant, the number of
findings with `score < Threshold` and a `cell_reference` (provided each
such finding's sheet exists in the workbook, as pipeline-produced
findings guarantee). -/
theorem c6_items_removed_counts_redactable_findings (fs : FS)
    (input output : String) (wb : Workbook) (findings : List MacroFinding)
    (thr : Int) (hload : fs input = some (.excel wb))
    (hsheets : ∀ f ∈ findings, f.score < thr →
      ∀ s cl r, f.cell_reference = some (s, cl, r) →
        (wb.sheets.any fun sh => sh.name = s) = true) :
    (create_sanitized_copy (some .excel) fs input output findings thr).retval
      = true ∧
    (create_sanitized_copy (some .excel) fs input output findings thr).itemsRemoved
      = (findings.filter (redactionGuard thr)).length := by
  obtain ⟨wb', hloop, -⟩ := excelSanitizeLoop_spec findings wb 0 thr hsheets
  show (_create_sanitized_excel fs input output findings thr).retval = true ∧
    (_create_sanitized_excel fs input output findings thr).itemsRemoved
      = (findings.filter (redactionGuard thr)).length
  unfold _create_sanitized_excel
  rw [hload]
  simp only [hloop]
  exact ⟨trivial, Nat.zero_add _⟩

/-- Witness for `c6_items_removed_counts_redactable_findings`: one
below-threshold finding on the existing sheet — success and count 1. -/
theorem c6_items_removed_counts_redactable_findings_witness :
    (create_sanitized_copy (some .excel) fsExcelOne "in.xlsx" "out.xlsx"
        [findingA1] 5).retval = true ∧
    (create_sanitized_copy (some .excel) fsExcelOne "in.xlsx" "out.xlsx"
        [findingA1] 5).itemsRemoved
      = ([findingA1].filter (redactionGuard 5)).length := by
  refine c6_items_removed_counts_redactable_findings fsExcelOne "in.xlsx"
    "out.xlsx" wbOneSheet [findingA1] 5 rfl ?_
  intro f hf hsc s cl r hcr
  rcases List.mem_singleton.mp hf with rfl
  rw [show findingA1.cell_reference = some ("Sheet1", "A", 1) from rfl] at hcr
  simp only [Option.some.injEq, Prod.mk.injEq] at hcr
  obtain ⟨rfl, -⟩ := hcr
  decide

/-! ## Claim C8 -/

theorem findingLexLt_of_score_le_item_lt (a b : MacroFinding)
    (h1 : a.score ≤ b.score) (h2 : a.item_number < b.item_number) :
    findingLexLt a b := by
  rcases lt_or_eq_of_le h1 with h | h
  · exact Or.inl h
  · exact Or.inr ⟨h, h2⟩

theorem findingLexLt_score_le {a b : MacroFinding} (h : findingLexLt a b) :
    a.score ≤ b.score := by
  rcases h with h | ⟨h, -⟩
  · exact le_of_lt h
  · exact le_of_eq h

/-- Inserting the item with the smallest `item_number` into a list that
is already in display order keeps the display order: the stable insert
places it before exactly the strictly-smaller scores' successors. -/
theorem pairwise_lex_orderedInsert (a : MacroFinding) :
    ∀ l : List MacroFinding, l.Pairwise findingLexLt →
      (∀ b ∈ l, a.item_number < b.item_number) →
      (List.orderedInsert scoreLeR a l).Pairwise findingLexLt
  | [], _, _ => by simp [List.orderedInsert]
  | b :: l, hp, hitems => by
    rcases List.pairwise_cons.mp hp with ⟨hb, hl⟩
    unfold List.orderedInsert
    by_cases hab : scoreLeR a b
    · rw [if_pos hab]
      refine List.pairwise_cons.mpr ⟨?_, hp⟩
      intro c hc
      refine findingLexLt_of_score_le_item_lt a c ?_ (hitems c hc)
      rcases List.mem_cons.mp hc with rfl | hc
      · exact hab
      · exact le_trans hab (findingLexLt_score_le (hb c hc))
    · rw [if_neg hab]
      have hba : b.score < a.score := lt_of_not_le hab
      refine List.pairwise_cons.mpr ⟨?_, ?_⟩
      · intro c hc
        rcases (List.mem_orderedInsert scoreLeR).mp hc with rfl | hc
        · exact Or.inl hba
        · exact hb c hc
      · exact pairwise_lex_orderedInsert a l hl
          (fun c hc => hitems c (List.mem_cons_of_mem b hc))

/-- C8 (confirmed): for findings whose `item_number`s strictly increase
along the list — which is how `scan_file` builds `self.findings` — the
report's detailed entries (`sorted(self.findings, key=lambda x:
x.score)`, a stable sort) are in ascending score order with ties broken
by ascending `item_number`, whatever the scores' discovery order; and
they are exactly the findings (a permutation). -/
theorem c8_report_sorted_by_score_then_item :
    ∀ findings : List MacroFinding,
      findings.Pairwise (fun a b => a.item_number < b.item_number) →
      (sortFindingsByScore findings).Pairwise findingLexLt ∧
      (sortFindingsByScore findings).Perm findings
  | [], _ => ⟨by simp [sortFindingsByScore, List.insertionSort], List.Perm.refl _⟩
  | f :: rest, hp => by
    rcases List.pairwise_cons.mp hp with ⟨hf, hrest⟩
    refine ⟨?_, List.perm_insertionSort scoreLeR (f :: rest)⟩
    show (List.orderedInsert scoreLeR f (sortFindingsByScore rest)).Pairwise findingLexLt
    refine pairwise_lex_orderedInsert f (sortFindingsByScore rest)
      (c8_report_sorted_by_score_then_item rest hrest).1 ?_
    intro b hb
    exact hf b ((List.perm_insertionSort scoreLeR rest).mem_iff.mp hb)

/-- Witness for `c8_report_sorted_by_score_then_item` at the findings
list with scores 8, 3, 3 in discovery order. -/
theorem c8_report_sorted_by_score_then_item_witness :
    (sortFindingsByScore findingsForSort).Pairwise findingLexLt ∧
    (sortFindingsByScore findingsForSort).Perm findingsForSort :=
  c8_report_sorted_by_score_then_item findingsForSort (by decide)
